import Mathlib

/-!
Verification of the Trivia API backend (`src/starter_code/backend/flaskr/__init__.py`)
against its natural-language specification.

The route handlers are shallowly embedded as pure functions over an explicit
`Store` (the relational database state).  HTTP error aborts are modelled with
`Except Nat`, the error carrying the HTTP status code.  Python list slicing,
including its negative-index semantics, is modelled by `pySlice`.
-/

namespace Trivia

/-- Modelled from the spec: `models.py` is not under `src/`. Per spec section 3 a
Question row has a store-assigned unique id, question text, answer text, a
loosely-typed category field referencing a Category id (kept in string form, the
form used by the `filter_by(category=str(id))` query in the handlers), and a
small-integer difficulty. -/
structure Question where
  id : Nat
  question : String
  answer : String
  category : String
  difficulty : Nat
deriving DecidableEq, Repr

/-- Modelled from the spec: `models.py` is not under `src/`. Per spec section 3 a
Category row has a unique id and a display string `type`. -/
structure Category where
  id : Nat
  type : String
deriving DecidableEq, Repr

/-- Modelled from the spec: the JSON dictionary produced by `question.format()`
in the missing `models.py`; it carries the fields of the question row. -/
structure FormattedQuestion where
  id : Nat
  question : String
  answer : String
  category : String
  difficulty : Nat
deriving DecidableEq, Repr

/-- Modelled from the spec: `question.format()` from the missing `models.py`. -/
def Question.format (q : Question) : FormattedQuestion :=
  { id := q.id, question := q.question, answer := q.answer,
    category := q.category, difficulty := q.difficulty }

/-- The relational store: the rows of the two tables, in table order. -/
structure Store where
  questions : List Question
  categories : List Category
deriving DecidableEq, Repr

/-- Python slice index normalization for `l[a:b]` on a list of length `n`: a
negative index counts from the end, and the result is clamped into `[0, n]`. -/
def pySliceIdx (n : Nat) (i : Int) : Nat :=
  min ((if i < 0 then i + n else i).toNat) n

/-- Python list slice `l[a:b]` (step 1): the elements from the normalized
start index up to the normalized stop index. -/
def pySlice (l : List α) (a b : Int) : List α :=
  (l.drop (pySliceIdx l.length a)).take (pySliceIdx l.length b - pySliceIdx l.length a)

/-- The module constant `QUESTIONS_PER_PAGE = 10`. -/
def QUESTIONS_PER_PAGE : Int := 10

/-- The helper `paginate_questions(request, selection)`: reads the 1-based page
number from the request args (`request.args.get` with default 1, modelled by the
`Option Int` argument), formats the selection and returns the Python slice
`questions[start:end]` with `start = (page - 1) * 10` and `end = start + 10`. -/
def paginate_questions (pageArg : Option Int) (selection : List Question) :
    List FormattedQuestion :=
  let page : Int := pageArg.getD 1
  let start : Int := (page - 1) * QUESTIONS_PER_PAGE
  let stop : Int := start + QUESTIONS_PER_PAGE
  let questions := selection.map Question.format
  pySlice questions start stop

/-- Boolean id comparison used to model `order_by(Question.id)`. -/
def leQId (a b : Question) : Bool := a.id ≤ b.id

/-- Boolean id comparison used to model `order_by(Category.id)`. -/
def leCId (a b : Category) : Bool := a.id ≤ b.id

/-- The query `Question.query.order_by(Question.id).all()`. -/
def questionsOrderedById (s : Store) : List Question :=
  s.questions.mergeSort leQId

/-- The query `Category.query.order_by(Category.id).all()`. -/
def categoriesOrderedById (s : Store) : List Category :=
  s.categories.mergeSort leCId

/-- JSON body of a successful `GET /categories` response. -/
structure CategoriesResponse where
  success : Bool
  categories : List (Nat × String)
deriving DecidableEq, Repr

/-- The handler `get_categories`: all categories ordered by id; 404 when the
store holds zero categories; otherwise the id-to-type mapping (a Python dict
comprehension, modelled as the association list in iteration order). -/
def get_categories (s : Store) : Except Nat CategoriesResponse :=
  let categories := categoriesOrderedById s
  if categories.length = 0 then Except.error 404
  else Except.ok { success := true,
                   categories := categories.map (fun c => (c.id, c.type)) }

/-- JSON body of a successful `GET /questions` response. -/
structure QuestionsResponse where
  success : Bool
  questions : List FormattedQuestion
  total_questions : Nat
  categories : List (Nat × String)
deriving DecidableEq, Repr

/-- The handler `get_questions`: all questions ordered by id, paginated; 404
when the requested page is empty; `total_questions` is the length of the full
selection, and the category mapping comes from `Category.query.all()` (no
ordering). -/
def get_questions (pageArg : Option Int) (s : Store) :
    Except Nat QuestionsResponse :=
  let selection := questionsOrderedById s
  let current_questions := paginate_questions pageArg selection
  if current_questions.isEmpty then Except.error 404
  else Except.ok { success := true,
                   questions := current_questions,
                   total_questions := selection.length,
                   categories := s.categories.map (fun c => (c.id, c.type)) }

/-- JSON body of a successful `DELETE /questions/{id}` response. -/
structure DeleteResponse where
  success : Bool
  deleted : Nat
  total_questions : Nat
deriving DecidableEq, Repr

/-- The handler `delete_question`: looks the question up by id
(`one_or_none`), aborts 404 when absent, otherwise deletes that row and reports
the deleted id with the post-deletion total.  The function returns the response
together with the store after the request. -/
def delete_question (id : Nat) (s : Store) : Except Nat DeleteResponse × Store :=
  match s.questions.find? (fun q => q.id == id) with
  | none => (Except.error 404, s)
  | some _ =>
      let s2 : Store := { s with questions := s.questions.eraseP (fun q => q.id == id) }
      (Except.ok { success := true, deleted := id,
                   total_questions := s2.questions.length }, s2)

/-- Python runtime values, as far as the `create_new_question` validation check
needs them. -/
inductive PyVal where
  | none
  | str (s : String)
  | int (n : Int)
  | tuple (elems : List PyVal)
  | dict (entries : List (String × PyVal))

/-- Python truthiness of the modelled values. -/
def PyVal.truthy : PyVal → Bool
  | .none => false
  | .str s => !(s == "")
  | .int n => !(n == 0)
  | .tuple es => !es.isEmpty
  | .dict es => !es.isEmpty

/-- Python `or`: the first operand when truthy, otherwise the second. -/
def pyOr (a b : PyVal) : PyVal := if a.truthy then a else b

/-- Python `is` on the values appearing in the validation check: a freshly
constructed tuple or dict literal is a new object, identical to nothing already
in hand; immutable scalars are compared by interned value, an approximation
that is exact for the scalar-versus-scalar cases. -/
def pyIs : PyVal → PyVal → Bool
  | .none, .none => true
  | .str a, .str b => a == b
  | .int a, .int b => a == b
  | _, _ => false

/-- The validation test in `create_new_question`:
`(input, new_question, new_answer, new_category, new_difficulty) is (None or "")`. -/
def createValidationCheck (input q a c d : PyVal) : Bool :=
  pyIs (.tuple [input, q, a, c, d]) (pyOr .none (.str ""))

/-- A parsed `POST /questions` JSON body supplying the four fields. -/
structure QuestionInput where
  question : String
  answer : String
  category : String
  difficulty : Nat
deriving DecidableEq, Repr

/-- The JSON body as the Python dict returned by `request.get_json()`. -/
def QuestionInput.pyInput (b : QuestionInput) : PyVal :=
  .dict [("question", .str b.question), ("answer", .str b.answer),
         ("category", .str b.category), ("difficulty", .int b.difficulty)]

/-- Modelled from the spec: the store-assigned unique id of an inserted row
(`models.py` is not under `src/`); one larger than every id already present. -/
def Store.nextQuestionId (s : Store) : Nat :=
  (s.questions.map Question.id).foldr max 0 + 1

/-- JSON body of a successful `POST /questions` response. -/
structure CreateResponse where
  success : Bool
  created : Nat
  questions : List FormattedQuestion
  total_questions : Nat
deriving DecidableEq, Repr

/-- The handler `create_new_question`: extracts the four fields, runs the
validation check (aborting 422 when it fires), inserts the question, and
answers with the new id, the paginated listing of all questions ordered by id,
and the new total, with HTTP status 201.  The function returns the response
paired with the HTTP status, together with the store after the request. -/
def create_new_question (pageArg : Option Int) (body : QuestionInput) (s : Store) :
    Except Nat (CreateResponse × Nat) × Store :=
  if createValidationCheck body.pyInput (.str body.question) (.str body.answer)
      (.str body.category) (.int body.difficulty) then
    (Except.error 422, s)
  else
    let q : Question := { id := s.nextQuestionId, question := body.question,
                          answer := body.answer, category := body.category,
                          difficulty := body.difficulty }
    let s2 : Store := { s with questions := s.questions ++ [q] }
    let selection := questionsOrderedById s2
    let current_questions := paginate_questions pageArg selection
    (Except.ok ({ success := true, created := q.id,
                  questions := current_questions,
                  total_questions := selection.length }, 201), s2)

/-- Literal substring occurrence on character lists: some suffix of the
haystack starts with the needle.  Used to state what substring containment is,
for comparison with the LIKE semantics the program actually applies. -/
def charsContains (needle : List Char) : List Char → Bool
  | [] => needle.isPrefixOf ([] : List Char)
  | c :: rest => needle.isPrefixOf (c :: rest) || charsContains needle rest

/-- SQL LIKE pattern matching over characters: a percent sign matches any
sequence (each suffix of the subject is tried for the rest of the pattern), an
underscore matches exactly one character, and any other character matches
itself. -/
def likeMatch : List Char → List Char → Bool
  | [], s => s.isEmpty
  | p :: ps, s =>
      if p = '%' then s.tails.any (fun t => likeMatch ps t)
      else
        match s with
        | [] => false
        | c :: t => (p == '_' || p == c) && likeMatch ps t

/-- The SQL filter `Question.question.ilike(f'%{term}%')`: LIKE match of the
pattern built by wrapping the interpolated term in percent signs, case folded
character by character.  The percent and underscore wildcards inside the
user-supplied term remain active, as in SQL; per the SQL standard no escape
character is active absent an ESCAPE clause. -/
def ilikeContains (hay term : String) : Bool :=
  likeMatch (('%' :: term.toList ++ ['%']).map Char.toLower)
    (hay.toList.map Char.toLower)

/-- The string interpolated into the ilike pattern: the Python `None` of a
missing `searchTerm` key formats as the literal text `None` inside the
f-string. -/
def searchTermString : Option String → String
  | some t => t
  | Option.none => "None"

/-- The selection of `search_questions`: every question whose text contains the
search input as a case-insensitive substring, in store order (no ordering is
applied by the handler). -/
def searchMatches (term : Option String) (s : Store) : List Question :=
  s.questions.filter (fun q => ilikeContains q.question (searchTermString term))

/-- JSON body of a successful `POST /questions/search` response. -/
structure SearchResponse where
  success : Bool
  questions : List FormattedQuestion
  total_questions : Nat
deriving DecidableEq, Repr

/-- The handler `search_questions`: filters by case-insensitive substring,
answers with the paginated matches when any exist (note that
`total_questions` is the length of the paginated list, not of the full
selection), and aborts 404 when the selection is empty. -/
def search_questions (pageArg : Option Int) (term : Option String) (s : Store) :
    Except Nat SearchResponse :=
  let selection := searchMatches term s
  if selection.length ≠ 0 then
    let found := paginate_questions pageArg selection
    Except.ok { success := true, questions := found,
                total_questions := found.length }
  else Except.error 404

/-- JSON body of a successful `GET /categories/{id}/questions` response. -/
structure CategoryQuestionsResponse where
  success : Bool
  questions : List FormattedQuestion
  total_questions : Nat
  current_category : String
deriving DecidableEq, Repr

/-- The handler `get_questions_by_category`: looks the category up by id
(`one_or_none`); when present, filters questions whose category field equals
`str(id)` and paginates them.  When the lookup returns nothing the handler
still builds the response, reading locals that were never assigned and
dereferencing `category.type` on `None`; the uncaught exception surfaces as an
unstructured HTTP 500, modelled as `Except.error 500`. -/
def get_questions_by_category (id : Nat) (pageArg : Option Int) (s : Store) :
    Except Nat CategoryQuestionsResponse :=
  match s.categories.find? (fun c => c.id == id) with
  | Option.none => Except.error 500
  | some category =>
      let questions := s.questions.filter (fun q => q.category == toString id)
      let current_questions := paginate_questions pageArg questions
      Except.ok { success := true, questions := current_questions,
                  total_questions := questions.length,
                  current_category := category.type }

/-- The candidate selection of `play_quizzes_game`: all questions whose id is
not in the previous-questions list, restricted to the requested category when
its id is not 0.  The comparison of the string-typed category column with the
integer id is modelled as comparison with its decimal string form. -/
def quizCandidates (category_id : Nat) (previous_questions : List Nat) (s : Store) :
    List Question :=
  if category_id == 0 then
    s.questions.filter (fun q => !previous_questions.contains q.id)
  else
    s.questions.filter
      (fun q => !previous_questions.contains q.id && q.category == toString category_id)

/-- JSON body of a `POST /quizzes` response; `question` is absent when the
candidate selection is exhausted. -/
structure QuizResponse where
  success : Bool
  question : Option FormattedQuestion
deriving DecidableEq, Repr

/-- The handler `play_quizzes_game`: when the candidate selection is non-empty,
`random.choice` picks one entry, modelled by an arbitrary draw `r` reduced
modulo the candidate count (every index is realised by some draw); when it is
empty, the response carries no question field. -/
def play_quizzes_game (category_id : Nat) (previous_questions : List Nat)
    (r : Nat) (s : Store) : QuizResponse :=
  match quizCandidates category_id previous_questions s with
  | [] => { success := true, question := Option.none }
  | q :: rest =>
      { success := true,
        question :=
          some (((q :: rest).get
            ⟨r % (q :: rest).length, Nat.mod_lt r (Nat.succ_pos rest.length)⟩).format) }

/-! Sample data used by the witness theorems. -/

/-- Sample question, category 3. -/
def wq1 : Question :=
  { id := 1, question := "What is the largest lake in Africa?",
    answer := "Lake Victoria", category := "3", difficulty := 2 }

/-- Sample question, category 3. -/
def wq2 : Question :=
  { id := 2, question := "In which royal palace would you find the Hall of Mirrors?",
    answer := "The Palace of Versailles", category := "3", difficulty := 3 }

/-- Sample question, category 1. -/
def wq3 : Question :=
  { id := 3, question := "What boxer is known as The Greatest?",
    answer := "Muhammad Ali", category := "1", difficulty := 1 }

/-- Sample category 1. -/
def wc1 : Category := { id := 1, type := "Science" }

/-- Sample category 3. -/
def wc3 : Category := { id := 3, type := "Geography" }

/-- Sample store holding the three questions (out of id order) and the two
categories. -/
def wStore : Store :=
  { questions := [wq2, wq1, wq3], categories := [wc1, wc3] }

/-! General lemmas about the pagination helper and the ordered queries. -/

/-- A Python slice of width `k` holds at most `k` elements. -/
theorem pySlice_length_le (l : List α) (a : Int) (k : Nat) :
    (pySlice l a (a + k)).length ≤ k := by
  unfold pySlice pySliceIdx
  simp only [List.length_take, List.length_drop]
  split_ifs <;> omega

/-- A Python slice starting at or beyond the list length is empty. -/
theorem pySlice_eq_nil_of_ge (l : List α) (a b : Int) (h : (l.length : Int) ≤ a) :
    pySlice l a b = [] := by
  unfold pySlice pySliceIdx
  have hlo : min ((if a < 0 then a + l.length else a).toNat) l.length = l.length := by
    split_ifs <;> omega
  rw [hlo]
  simp

/-- A Python slice is a sublist of the sliced list. -/
theorem pySlice_sublist (l : List α) (a b : Int) : (pySlice l a b).Sublist l :=
  List.Sublist.trans (List.take_sublist _ _) (List.drop_sublist _ _)

/-- A Python slice starting at 0 with nonnegative width `k` is `take k`. -/
theorem pySlice_zero (l : List α) (k : Nat) : pySlice l 0 k = l.take k := by
  unfold pySlice pySliceIdx
  have h0 : min ((if (0:Int) < 0 then (0:Int) + l.length else 0).toNat) l.length = 0 := by
    split_ifs <;> omega
  have hk : min ((if (k:Int) < 0 then (k:Int) + l.length else (k:Int)).toNat) l.length
      = min k l.length := by
    split_ifs <;> omega
  rw [h0, hk, List.drop_zero, Nat.sub_zero]
  rcases le_or_lt k l.length with h | h
  · rw [min_eq_left h]
  · rw [min_eq_right h.le, List.take_length, List.take_of_length_le h.le]

/-- The pagination helper is the Python slice `[(page-1)*10 : page*10]` of the
formatted selection. -/
theorem paginate_questions_eq (pageArg : Option Int) (sel : List Question) :
    paginate_questions pageArg sel =
      pySlice (sel.map Question.format)
        ((pageArg.getD 1 - 1) * 10) (pageArg.getD 1 * 10) := by
  show pySlice (sel.map Question.format)
      ((pageArg.getD 1 - 1) * 10) ((pageArg.getD 1 - 1) * 10 + 10) = _
  rw [show (pageArg.getD 1 - 1) * 10 + 10 = pageArg.getD 1 * 10 from by ring]

/-- A page holds at most ten questions. -/
theorem paginate_questions_length_le (pageArg : Option Int) (sel : List Question) :
    (paginate_questions pageArg sel).length ≤ 10 := by
  unfold paginate_questions QUESTIONS_PER_PAGE
  exact pySlice_length_le (sel.map Question.format) ((pageArg.getD 1 - 1) * 10) 10

/-- A page is a sublist of the formatted selection. -/
theorem paginate_questions_sublist (pageArg : Option Int) (sel : List Question) :
    (paginate_questions pageArg sel).Sublist (sel.map Question.format) := by
  rw [paginate_questions_eq]
  exact pySlice_sublist _ _ _

/-- The ordered question query returns a permutation of the question table. -/
theorem questionsOrderedById_perm (s : Store) :
    (questionsOrderedById s).Perm s.questions :=
  List.mergeSort_perm s.questions leQId

/-- The ordered question query preserves the row count. -/
theorem questionsOrderedById_length (s : Store) :
    (questionsOrderedById s).length = s.questions.length :=
  List.length_mergeSort s.questions

/-- The ordered question query is sorted by id. -/
theorem questionsOrderedById_pairwise (s : Store) :
    (questionsOrderedById s).Pairwise (fun a b => a.id ≤ b.id) := by
  have h := @List.sorted_mergeSort Question leQId
    (fun a b c hab hbc => by
      simp only [leQId, decide_eq_true_eq] at *
      omega)
    (fun a b => by
      simp only [leQId, Bool.or_eq_true, decide_eq_true_eq]
      omega)
    s.questions
  exact h.imp (fun hab => by simpa [leQId] using hab)

/-- The ordered category query returns a permutation of the category table. -/
theorem categoriesOrderedById_perm (s : Store) :
    (categoriesOrderedById s).Perm s.categories :=
  List.mergeSort_perm s.categories leCId

/-- The ordered category query is sorted by id. -/
theorem categoriesOrderedById_pairwise (s : Store) :
    (categoriesOrderedById s).Pairwise (fun a b => a.id ≤ b.id) := by
  have h := @List.sorted_mergeSort Category leCId
    (fun a b c hab hbc => by
      simp only [leCId, decide_eq_true_eq] at *
      omega)
    (fun a b => by
      simp only [leCId, Bool.or_eq_true, decide_eq_true_eq]
      omega)
    s.categories
  exact h.imp (fun hab => by simpa [leCId] using hab)

/-- Formatting preserves the id, so a list of formatted questions inherits the
id ordering of the underlying rows. -/
theorem pairwise_format_of_pairwise {l : List Question}
    (h : l.Pairwise (fun a b => a.id ≤ b.id)) :
    (l.map Question.format).Pairwise (fun a b => a.id ≤ b.id) :=
  List.pairwise_map.mpr (h.imp (fun hab => hab))

/-! Claim theorems. -/

/-- Claim C1: `paginate_questions`, for every result list and requested page
number P (1-based, defaulting to 1 when absent), returns the Python sub-slice
`[(P-1)*10 : P*10]` of the formatted list; whenever the slice start reaches the
list length the result is empty; and for P at most 0 the slice start is
negative with no lower-bound validation applied, Python negative-index slicing
semantics governing the result. -/
theorem C1_paginate_questions_slice (pageArg : Option Int) (selection : List Question) :
    paginate_questions pageArg selection =
      pySlice (selection.map Question.format)
        ((pageArg.getD 1 - 1) * 10) (pageArg.getD 1 * 10) ∧
    ((selection.length : Int) ≤ (pageArg.getD 1 - 1) * 10 →
      paginate_questions pageArg selection = []) ∧
    (pageArg.getD 1 ≤ 0 → (pageArg.getD 1 - 1) * 10 < 0) ∧
    paginate_questions Option.none selection = paginate_questions (some 1) selection := by
  refine ⟨paginate_questions_eq pageArg selection, fun h => ?_, fun h => by omega, rfl⟩
  rw [paginate_questions_eq]
  exact pySlice_eq_nil_of_ge _ _ _ (by simpa using h)

/-- Witness for C1 at concrete inputs: page 5 of a three-question list is
empty, and page 0 gives a negative slice start. -/
theorem C1_paginate_questions_slice_witness :
    paginate_questions (some 5) [wq2, wq1, wq3] = [] ∧
    (((some 0).getD 1 : Int) - 1) * 10 < 0 :=
  ⟨(C1_paginate_questions_slice (some 5) [wq2, wq1, wq3]).2.1 (by decide),
   (C1_paginate_questions_slice (some 0) [wq2, wq1, wq3]).2.2.1 (by decide)⟩

/-- Claim C2: `GET /questions` answers, on every non-empty page, a success
response whose question list is ordered by id and holds at most ten entries,
with `total_questions` the full unpaginated count; and it fails with 404
exactly when the requested page slice is empty (pages beyond the data
included). -/
theorem C2_get_questions (pageArg : Option Int) (s : Store) :
    (∀ r, get_questions pageArg s = Except.ok r →
      r.success = true ∧
      r.questions.Pairwise (fun x y => x.id ≤ y.id) ∧
      r.questions.length ≤ 10 ∧
      r.total_questions = s.questions.length) ∧
    (get_questions pageArg s = Except.error 404 ↔
      paginate_questions pageArg (questionsOrderedById s) = []) ∧
    (paginate_questions pageArg (questionsOrderedById s) ≠ [] →
      ∃ r, get_questions pageArg s = Except.ok r) := by
  refine ⟨fun r hr => ?_, ?_, fun h => ?_⟩
  · unfold get_questions at hr
    by_cases h : (paginate_questions pageArg (questionsOrderedById s)).isEmpty
    · simp [h] at hr
    · simp only [h, Bool.false_eq_true, if_false, Except.ok.injEq] at hr
      subst hr
      refine ⟨rfl, ?_, paginate_questions_length_le _ _, questionsOrderedById_length s⟩
      exact List.Pairwise.sublist (paginate_questions_sublist _ _)
        (pairwise_format_of_pairwise (questionsOrderedById_pairwise s))
  · unfold get_questions
    by_cases h : (paginate_questions pageArg (questionsOrderedById s)).isEmpty
    · simp only [h, if_true]
      simpa [List.isEmpty_iff] using h
    · simp only [h, Bool.false_eq_true, if_false]
      constructor
      · intro hc
        exact absurd hc (by simp)
      · intro hc
        rw [List.isEmpty_iff] at h
        exact absurd hc h
  · unfold get_questions
    have h2 : (paginate_questions pageArg (questionsOrderedById s)).isEmpty = false := by
      rw [List.isEmpty_eq_false_iff_exists_mem]
      rcases List.exists_mem_of_ne_nil _ h with ⟨x, hx⟩
      exact ⟨x, hx⟩
    simp only [h2, Bool.false_eq_true, if_false]
    exact ⟨_, rfl⟩

unseal List.merge List.mergeSort

/-- Witness for C2 at a concrete store: page 1 of the three-question store is a
success with the stated shape, and page 7 yields the empty slice and a 404. -/
theorem C2_get_questions_witness :
    (∃ r, get_questions Option.none wStore = Except.ok r ∧
      r.success = true ∧
      r.questions.Pairwise (fun x y => x.id ≤ y.id) ∧
      r.questions.length ≤ 10 ∧
      r.total_questions = wStore.questions.length) ∧
    get_questions (some 7) wStore = Except.error 404 :=
  ⟨⟨{ success := true,
      questions := [wq1.format, wq2.format, wq3.format],
      total_questions := 3,
      categories := [(1, "Science"), (3, "Geography")] }, rfl,
    (C2_get_questions Option.none wStore).1 _ rfl⟩,
   (C2_get_questions (some 7) wStore).2.1.mpr rfl⟩

/-- Membership in the quiz candidate selection: a question of the store whose
id is not among the previous questions and whose category matches the
requested one when that is not 0. -/
theorem quizCandidates_mem (category_id : Nat) (previous_questions : List Nat)
    (s : Store) (q : Question) :
    q ∈ quizCandidates category_id previous_questions s ↔
      q ∈ s.questions ∧ q.id ∉ previous_questions ∧
        (category_id ≠ 0 → q.category = toString category_id) := by
  unfold quizCandidates
  by_cases h : category_id = 0
  · simp [h, List.mem_filter, List.contains, List.elem_iff]
  · simp [h, List.mem_filter, List.contains, List.elem_iff, and_assoc]

/-- Claim C3: `POST /quizzes` draws from the candidate selection of all
questions outside the previous-questions list, restricted to the requested
category when its id is not 0; a non-empty selection yields a success carrying
one of its members (each member being realised by some random draw), and an
empty selection yields a success response with no question field. -/
theorem C3_play_quizzes_game (category_id : Nat) (previous_questions : List Nat)
    (r : Nat) (s : Store) :
    (∀ q, q ∈ quizCandidates category_id previous_questions s ↔
      q ∈ s.questions ∧ q.id ∉ previous_questions ∧
        (category_id ≠ 0 → q.category = toString category_id)) ∧
    (quizCandidates category_id previous_questions s ≠ [] →
      ∃ q ∈ quizCandidates category_id previous_questions s,
        play_quizzes_game category_id previous_questions r s =
          { success := true, question := some q.format } ∧
        q.id ∉ previous_questions ∧
        (category_id ≠ 0 → q.category = toString category_id)) ∧
    (quizCandidates category_id previous_questions s = [] →
      play_quizzes_game category_id previous_questions r s =
        { success := true, question := Option.none }) ∧
    (∀ q ∈ quizCandidates category_id previous_questions s,
      ∃ r2, play_quizzes_game category_id previous_questions r2 s =
        { success := true, question := some q.format }) := by
  refine ⟨fun q => quizCandidates_mem category_id previous_questions s q,
    fun hne => ?_, fun hnil => ?_, fun q hq => ?_⟩
  · rcases hc : quizCandidates category_id previous_questions s with _ | ⟨q0, rest⟩
    · exact absurd hc hne
    · have hmem0 := List.get_mem (q0 :: rest) (r % (q0 :: rest).length)
        (Nat.mod_lt r (Nat.succ_pos rest.length))
      have hmem : (q0 :: rest).get
          ⟨r % (q0 :: rest).length, Nat.mod_lt r (Nat.succ_pos rest.length)⟩ ∈
          quizCandidates category_id previous_questions s := by
        rw [hc]
        exact hmem0
      refine ⟨(q0 :: rest).get
        ⟨r % (q0 :: rest).length, Nat.mod_lt r (Nat.succ_pos rest.length)⟩, ?_, ?_, ?_, ?_⟩
      · exact hmem0
      · unfold play_quizzes_game
        simp only [hc]
      · exact ((quizCandidates_mem _ _ _ _).mp hmem).2.1
      · exact ((quizCandidates_mem _ _ _ _).mp hmem).2.2
  · unfold play_quizzes_game
    simp only [hnil]
  · rcases hc : quizCandidates category_id previous_questions s with _ | ⟨q0, rest⟩
    · rw [hc] at hq
      cases hq
    · rw [hc, List.mem_iff_get] at hq
      obtain ⟨⟨i, hi⟩, hgi⟩ := hq
      refine ⟨i, ?_⟩
      unfold play_quizzes_game
      simp only [hc]
      have hfin : (⟨i % (q0 :: rest).length, Nat.mod_lt i (Nat.succ_pos rest.length)⟩ :
          Fin (q0 :: rest).length) = ⟨i, hi⟩ := by
        apply Fin.ext
        simpa using Nat.mod_eq_of_lt hi
      rw [hfin, hgi]

/-- Witness for C3 at a concrete store: with previous question 1 and category
3, the drawn question is question 2, and with all three ids previous the
response has no question field. -/
theorem C3_play_quizzes_game_witness :
    (∃ q ∈ quizCandidates 3 [1] wStore,
      play_quizzes_game 3 [1] 0 wStore = { success := true, question := some q.format } ∧
      q.id ∉ [1] ∧ (3 ≠ 0 → q.category = toString 3)) ∧
    play_quizzes_game 3 [1, 2, 3] 0 wStore = { success := true, question := Option.none } :=
  ⟨(C3_play_quizzes_game 3 [1] 0 wStore).2.1 (by decide),
   (C3_play_quizzes_game 3 [1, 2, 3] 0 wStore).2.2.1 (by decide)⟩

/-- The question row inserted by `create_new_question`, carrying the four body
fields and the store-assigned id. -/
def newQuestion (body : QuestionInput) (s : Store) : Question :=
  { id := s.nextQuestionId, question := body.question, answer := body.answer,
    category := body.category, difficulty := body.difficulty }

/-- The store after `create_new_question` appends the new row. -/
def storeAfterCreate (body : QuestionInput) (s : Store) : Store :=
  { s with questions := s.questions ++ [newQuestion body s] }

/-- Reduction of `create_new_question`: the validation check never fires, so
the handler always inserts and answers 201. -/
theorem create_new_question_eq (pageArg : Option Int) (body : QuestionInput) (s : Store) :
    create_new_question pageArg body s =
      (Except.ok ({ success := true, created := s.nextQuestionId,
                    questions := paginate_questions pageArg
                      (questionsOrderedById (storeAfterCreate body s)),
                    total_questions :=
                      (questionsOrderedById (storeAfterCreate body s)).length }, 201),
       storeAfterCreate body s) := rfl

/-- Claim C4: the `abort(422)` branch of `create_new_question` is unreachable:
the tuple-against-`None or ""` comparison evaluates false for every operand
combination, so the handler never rejects malformed input (empty-string fields
included) and always proceeds to insert the question. -/
theorem C4_create_validation_unreachable (input q a c d : PyVal)
    (pageArg : Option Int) (body : QuestionInput) (s : Store) :
    createValidationCheck input q a c d = false ∧
    (create_new_question pageArg body s).1 ≠ Except.error 422 ∧
    (create_new_question pageArg body s).2.questions =
      s.questions ++ [newQuestion body s] := by
  refine ⟨rfl, ?_, rfl⟩
  rw [create_new_question_eq]
  exact fun h => Except.noConfusion h

/-- The first page (`page` arg absent) is the first ten entries of the
formatted selection. -/
theorem paginate_questions_none_eq (sel : List Question) :
    paginate_questions Option.none sel = (sel.map Question.format).take 10 := by
  rw [paginate_questions_eq]
  have h := pySlice_zero (sel.map Question.format) 10
  simpa using h

/-- Claim C8: `POST /questions` with the four fields supplied answers HTTP 201
with success, `created` the newly assigned id, `questions` the first page (ten
items from index 0) of all questions ordered by id, and `total_questions` the
new total count. -/
theorem C8_create_new_question (body : QuestionInput) (s : Store) :
    create_new_question Option.none body s =
      (Except.ok ({ success := true,
                    created := s.nextQuestionId,
                    questions := ((questionsOrderedById (storeAfterCreate body s)).map
                      Question.format).take 10,
                    total_questions := s.questions.length + 1 }, 201),
       storeAfterCreate body s) := by
  rw [create_new_question_eq, paginate_questions_none_eq, questionsOrderedById_length]
  have hlen : (storeAfterCreate body s).questions.length = s.questions.length + 1 := by
    unfold storeAfterCreate
    simp
  rw [hlen]

/-- Claim C5: `GET /categories/{id}/questions` with an existing category id
answers success with exactly the questions whose category field equals the
string form of the id (paginated), and `current_category` equal to that
category's display string; with a nonexistent id the handler crashes while
building the response and the failure surfaces as an unstructured 500. -/
theorem C5_get_questions_by_category (id : Nat) (pageArg : Option Int) (s : Store) :
    (∀ cat, s.categories.find? (fun c => c.id == id) = some cat →
      get_questions_by_category id pageArg s =
        Except.ok { success := true,
                    questions := paginate_questions pageArg
                      (s.questions.filter (fun q => q.category == toString id)),
                    total_questions :=
                      (s.questions.filter (fun q => q.category == toString id)).length,
                    current_category := cat.type }) ∧
    (∀ r, get_questions_by_category id pageArg s = Except.ok r →
      ∀ fq ∈ r.questions, fq.category = toString id) ∧
    (s.categories.find? (fun c => c.id == id) = Option.none →
      get_questions_by_category id pageArg s = Except.error 500) := by
  refine ⟨fun cat hcat => ?_, fun r hr fq hfq => ?_, fun hnone => ?_⟩
  · unfold get_questions_by_category
    simp only [hcat]
  · unfold get_questions_by_category at hr
    rcases hfind : s.categories.find? (fun c => c.id == id) with _ | cat
    · simp only [hfind] at hr
      cases hr
    · simp only [hfind, Except.ok.injEq] at hr
      subst hr
      have hsub := (paginate_questions_sublist pageArg
        (s.questions.filter (fun q => q.category == toString id))).subset hfq
      rcases List.mem_map.mp hsub with ⟨q, hqf, rfl⟩
      have := (List.mem_filter.mp hqf).2
      simpa [Question.format] using this
  · unfold get_questions_by_category
    simp only [hnone]

/-- Witness for C5 at a concrete store: category 1 yields exactly the category-1
question with its display string, and the missing category 2 surfaces as 500. -/
theorem C5_get_questions_by_category_witness :
    get_questions_by_category 1 Option.none wStore =
      Except.ok { success := true, questions := [wq3.format], total_questions := 1,
                  current_category := "Science" } ∧
    get_questions_by_category 2 Option.none wStore = Except.error 500 :=
  ⟨by rw [(C5_get_questions_by_category 1 Option.none wStore).1 wc1 rfl]; rfl, by
    exact (C5_get_questions_by_category 2 Option.none wStore).2.2 rfl⟩

/-- The empty list is a suffix of every list, hence among its tails. -/
theorem nil_mem_tails (l : List Char) : ([] : List Char) ∈ l.tails := by
  rw [List.mem_tails]
  exact List.nil_suffix

/-- A leading percent sign matches when the rest of the pattern matches some
suffix of the subject. -/
theorem likeMatch_percent_cons (ps : List Char) (s : List Char) :
    likeMatch ('%' :: ps) s = s.tails.any (fun t => likeMatch ps t) := by
  simp [likeMatch]

/-- The pattern consisting of a single percent sign matches everything. -/
theorem likeMatch_percent_nil (t : List Char) : likeMatch ['%'] t = true := by
  rw [likeMatch_percent_cons, List.any_eq_true]
  exact ⟨[], nil_mem_tails t, rfl⟩

/-- A wildcard-free needle followed by a percent sign matches exactly the
subjects that start with the needle. -/
theorem likeMatch_append_percent (needle : List Char)
    (h : ∀ c ∈ needle, c ≠ '%' ∧ c ≠ '_') (t : List Char) :
    likeMatch (needle ++ ['%']) t = needle.isPrefixOf t := by
  induction needle generalizing t with
  | nil =>
      rw [List.nil_append, likeMatch_percent_nil]
      cases t <;> rfl
  | cons c cs ih =>
      have hc := h c (List.mem_cons_self c cs)
      rw [List.cons_append]
      cases t with
      | nil =>
          simp [likeMatch, hc.1, List.isPrefixOf]
      | cons d u =>
          have hne : ¬ (c = '%') := hc.1
          simp only [likeMatch, if_neg hne]
          rw [ih (fun x hx => h x (List.mem_cons_of_mem c hx)) u]
          have h2 : (c == '_') = false := by
            simp [hc.2]
          rw [h2, Bool.false_or]
          rfl

/-- Trying a prefix match at every suffix is substring containment. -/
theorem tails_any_isPrefixOf (needle s : List Char) :
    s.tails.any (fun t => needle.isPrefixOf t) = charsContains needle s := by
  induction s with
  | nil => simp [charsContains]
  | cons c t ih =>
      rw [List.tails_cons, List.any_cons, ih]
      simp [charsContains]

/-- For a term free of the percent and underscore wildcards, the ilike filter
is exactly case-insensitive substring containment. -/
theorem ilikeContains_eq_charsContains (hay term : String)
    (h : ∀ c ∈ term.toList.map Char.toLower, c ≠ '%' ∧ c ≠ '_') :
    ilikeContains hay term =
      charsContains (term.toList.map Char.toLower) (hay.toList.map Char.toLower) := by
  unfold ilikeContains
  have hp : ('%' :: term.toList ++ ['%']).map Char.toLower =
      '%' :: (term.toList.map Char.toLower ++ ['%']) := by
    simp
  rw [hp, likeMatch_percent_cons]
  have hpt : ∀ t, likeMatch (term.toList.map Char.toLower ++ ['%']) t =
      (term.toList.map Char.toLower).isPrefixOf t :=
    likeMatch_append_percent (term.toList.map Char.toLower) h
  simp only [hpt]
  exact tails_any_isPrefixOf _ _

/-- An empty search term gives the pattern of two percent signs, which matches
every question text. -/
theorem ilikeContains_empty (hay : String) : ilikeContains hay "" = true := by
  unfold ilikeContains
  have hp : (('%' :: ("" : String).toList ++ ['%']).map Char.toLower) = ['%', '%'] := rfl
  rw [hp, likeMatch_percent_cons, List.any_eq_true]
  refine ⟨hay.toList.map Char.toLower, ?_, likeMatch_percent_nil _⟩
  rw [List.mem_tails]

/-- Counterexample to claim C6 as stated: with the search term a lone percent
sign the interpolated pattern is three percent signs, which matches every
question, so the success response contains questions whose text does not
contain the term as a substring at all — refuting the only-substring-matches
part of the claim on a concrete input. -/
theorem C6_search_questions_counterexample :
    search_questions Option.none (some "%") wStore =
      Except.ok { success := true,
                  questions := [wq2.format, wq1.format, wq3.format],
                  total_questions := 3 } ∧
    charsContains ("%".toList.map Char.toLower)
      (wq2.question.toList.map Char.toLower) = false :=
  ⟨rfl, rfl⟩

/-- Claim C6, as amended: `POST /questions/search` answers success containing
only (and, before pagination, all) questions whose text matches the SQL LIKE
pattern built by wrapping the term in percent signs, case-insensitively — the
percent and underscore wildcards inside the term staying active, so that for a
wildcard-free term the filter is exactly case-insensitive substring
containment; with zero matches it fails with 404; the term is never validated
for presence or emptiness (an empty term simply matches every question, and a
missing one searches for the literal text None). -/
theorem C6_search_questions (pageArg : Option Int) (term : Option String) (s : Store) :
    (searchMatches term s ≠ [] →
      search_questions pageArg term s =
        Except.ok { success := true,
                    questions := paginate_questions pageArg (searchMatches term s),
                    total_questions :=
                      (paginate_questions pageArg (searchMatches term s)).length }) ∧
    (∀ r, search_questions pageArg term s = Except.ok r →
      ∀ fq ∈ r.questions, ilikeContains fq.question (searchTermString term) = true) ∧
    (searchMatches term s = [] → search_questions pageArg term s = Except.error 404) ∧
    searchMatches (some "") s = s.questions ∧
    ((∀ c ∈ (searchTermString term).toList.map Char.toLower, c ≠ '%' ∧ c ≠ '_') →
      ∀ hay : String, ilikeContains hay (searchTermString term) =
        charsContains ((searchTermString term).toList.map Char.toLower)
          (hay.toList.map Char.toLower)) := by
  refine ⟨fun hne => ?_, fun r hr fq hfq => ?_, fun hnil => ?_, ?_,
    fun hwf hay => ilikeContains_eq_charsContains hay (searchTermString term) hwf⟩
  · unfold search_questions
    rw [if_pos]
    intro hlen
    exact hne (List.length_eq_zero.mp hlen)
  · unfold search_questions at hr
    by_cases h : (searchMatches term s).length ≠ 0
    · rw [if_pos h] at hr
      rcases hr with ⟨⟩
      have hsub := (paginate_questions_sublist pageArg (searchMatches term s)).subset hfq
      rcases List.mem_map.mp hsub with ⟨q, hqf, rfl⟩
      have := (List.mem_filter.mp hqf).2
      simpa [Question.format] using this
    · rw [if_neg h] at hr
      cases hr
  · unfold search_questions
    rw [if_neg]
    intro hlen
    exact hlen (by simp [hnil])
  · unfold searchMatches
    rw [List.filter_eq_self]
    intro q hq
    exact ilikeContains_empty q.question

/-- Witness for C6 at a concrete store: the wildcard-free term lake matches
exactly the lake question (and the filter there provably coincides with
substring containment), while a term matching nothing yields 404. -/
theorem C6_search_questions_witness :
    search_questions Option.none (some "lake") wStore =
      Except.ok { success := true, questions := [wq1.format], total_questions := 1 } ∧
    search_questions Option.none (some "xyzzy") wStore = Except.error 404 ∧
    ilikeContains wq1.question (searchTermString (some "lake")) =
      charsContains ((searchTermString (some "lake")).toList.map Char.toLower)
        (wq1.question.toList.map Char.toLower) :=
  ⟨by rw [(C6_search_questions Option.none (some "lake") wStore).1 (by decide)]; rfl,
   (C6_search_questions Option.none (some "xyzzy") wStore).2.2.1 (by decide),
   (C6_search_questions Option.none (some "lake") wStore).2.2.2.2 (by decide)
     wq1.question⟩

/-- After erasing the sole row carrying the id, no row with that id remains. -/
theorem find?_eraseP_eq_none {l : List Question} {id : Nat}
    (h : (l.map Question.id).Nodup) :
    (l.eraseP (fun q => q.id == id)).find? (fun q => q.id == id) = Option.none := by
  induction l with
  | nil => rfl
  | cons x xs ih =>
      rw [List.map_cons, List.nodup_cons] at h
      by_cases hx : x.id = id
      · rw [List.eraseP_cons_of_pos (by simpa using hx)]
        rw [List.find?_eq_none]
        intro q hq hbeq
        apply h.1
        rw [List.mem_map]
        refine ⟨q, hq, ?_⟩
        have hq2 : q.id = id := by simpa using hbeq
        rw [hq2, hx]
      · rw [List.eraseP_cons_of_neg (by simpa using hx)]
        rw [List.find?_cons_of_neg _ (by simpa using hx)]
        exact ih h.2

/-- Claim C7: `DELETE /questions/{id}` with a present id deletes that question
(a subsequent lookup returns none), answering success with the deleted id and
the post-deletion total; with an absent id it fails with 404 and the store is
unchanged. -/
theorem C7_delete_question (id : Nat) (s : Store) :
    ((s.questions.map Question.id).Nodup →
      ∀ q ∈ s.questions, q.id = id →
        delete_question id s =
          (Except.ok { success := true, deleted := id,
                       total_questions := s.questions.length - 1 },
           { s with questions := s.questions.eraseP (fun q2 => q2.id == id) }) ∧
        (delete_question id s).2.questions.find? (fun q2 => q2.id == id) =
          Option.none) ∧
    ((∀ q ∈ s.questions, q.id ≠ id) →
      delete_question id s = (Except.error 404, s)) := by
  refine ⟨fun hnd q hq hqid => ?_, fun hno => ?_⟩
  · have hdel : delete_question id s =
        (Except.ok { success := true, deleted := id,
                     total_questions := s.questions.length - 1 },
         { s with questions := s.questions.eraseP (fun q2 => q2.id == id) }) := by
      unfold delete_question
      rcases hfind : s.questions.find? (fun q2 => q2.id == id) with _ | q0
      · exact absurd (List.find?_eq_none.mp hfind q hq) (by simp [hqid])
      · simp only [hfind]
        rw [List.length_eraseP_of_mem hq (by simp [hqid])]
    refine ⟨hdel, ?_⟩
    rw [hdel]
    exact find?_eraseP_eq_none hnd
  · unfold delete_question
    have hfind : s.questions.find? (fun q2 => q2.id == id) = Option.none :=
      List.find?_eq_none.mpr (fun q hq => by simpa using hno q hq)
    simp only [hfind]

/-- Witness for C7 at a concrete store: deleting present id 1 removes it and
reports the new total, deleting absent id 9 yields 404 with the store
unchanged. -/
theorem C7_delete_question_witness :
    (delete_question 1 wStore =
       (Except.ok { success := true, deleted := 1,
                    total_questions := wStore.questions.length - 1 },
        { wStore with questions := wStore.questions.eraseP (fun q2 => q2.id == 1) }) ∧
     (delete_question 1 wStore).2.questions.find? (fun q2 => q2.id == 1) =
       Option.none) ∧
    delete_question 9 wStore = (Except.error 404, wStore) :=
  ⟨(C7_delete_question 1 wStore).1 (by decide) wq1 (by decide) rfl,
   (C7_delete_question 9 wStore).2 (by decide)⟩

/-- Claim C9: `GET /categories` with at least one category answers success with
the id-to-display-string mapping over all categories ordered by id, with no
pagination; with zero categories it fails with 404. -/
theorem C9_get_categories (s : Store) :
    (get_categories s = Except.error 404 ↔ s.categories = []) ∧
    (s.categories ≠ [] →
      get_categories s =
        Except.ok { success := true,
                    categories := (categoriesOrderedById s).map
                      (fun c => (c.id, c.type)) }) ∧
    (∀ r, get_categories s = Except.ok r →
      r.categories.Pairwise (fun x y => x.1 ≤ y.1) ∧
      r.categories.length = s.categories.length) ∧
    (categoriesOrderedById s).Perm s.categories := by
  have hlen : (categoriesOrderedById s).length = s.categories.length :=
    List.length_mergeSort s.categories
  refine ⟨?_, fun hne => ?_, fun r hr => ?_, categoriesOrderedById_perm s⟩
  · unfold get_categories
    by_cases h : (categoriesOrderedById s).length = 0
    · simp only [h, if_true]
      simp only [true_iff]
      rw [← List.length_eq_zero, ← hlen]
      exact h
    · simp only [h, if_false]
      constructor
      · intro hc
        cases hc
      · intro hc
        rw [← List.length_eq_zero, ← hlen] at hc
        exact absurd hc h
  · unfold get_categories
    rw [if_neg]
    rw [hlen]
    intro hc
    exact hne (List.length_eq_zero.mp hc)
  · unfold get_categories at hr
    by_cases h : (categoriesOrderedById s).length = 0
    · simp only [h, if_true] at hr
      cases hr
    · simp only [h, if_false, Except.ok.injEq] at hr
      subst hr
      constructor
      · exact List.pairwise_map.mpr
          ((categoriesOrderedById_pairwise s).imp (fun hab => hab))
      · rw [List.length_map, hlen]

/-- Witness for C9 at concrete stores: the two-category store answers the
ordered mapping, and the empty store answers 404. -/
theorem C9_get_categories_witness :
    get_categories wStore =
      Except.ok { success := true, categories := [(1, "Science"), (3, "Geography")] } ∧
    get_categories { questions := [], categories := [] } = Except.error 404 :=
  ⟨by rw [(C9_get_categories wStore).2.1 (by decide)]; rfl, by
    exact (C9_get_categories { questions := [], categories := [] }).1.mpr rfl⟩

/-- A question row of the large sample store. -/
def bq (n : Nat) : Question :=
  { id := n, question := "Name a lake", answer := "Lake Victoria",
    category := "1", difficulty := 1 }

/-- A store holding eleven questions all of whose texts contain lake. -/
def bigStore : Store :=
  { questions := (List.range 11).map (fun n => bq (n + 1)), categories := [wc1] }

/-- Claim C10 (implicit): in every success response of `POST /questions/search`
the `total_questions` field equals the length of the returned paginated list
(hence is at most 10), so whenever more than ten questions match it understates
the full match count; unlike `GET /questions`, whose `total_questions` is the
full unpaginated count. -/
theorem C10_search_total_questions (pageArg : Option Int) (term : Option String)
    (s : Store) :
    (∀ r, search_questions pageArg term s = Except.ok r →
      r.total_questions = r.questions.length ∧
      r.total_questions ≤ 10 ∧
      (10 < (searchMatches term s).length →
        r.total_questions < (searchMatches term s).length)) ∧
    (∀ r2, get_questions pageArg s = Except.ok r2 →
      r2.total_questions = s.questions.length) := by
  refine ⟨fun r hr => ?_, fun r2 hr2 => ?_⟩
  · unfold search_questions at hr
    by_cases h : (searchMatches term s).length ≠ 0
    · rw [if_pos h] at hr
      rcases hr with ⟨⟩
      refine ⟨rfl, paginate_questions_length_le _ _, fun hgt => ?_⟩
      exact lt_of_le_of_lt (paginate_questions_length_le _ _) hgt
    · rw [if_neg h] at hr
      cases hr
  · unfold get_questions at hr2
    by_cases h : (paginate_questions pageArg (questionsOrderedById s)).isEmpty
    · simp [h] at hr2
    · simp only [h, Bool.false_eq_true, if_false, Except.ok.injEq] at hr2
      subst hr2
      exact questionsOrderedById_length s

/-- Witness for C10 at a concrete store with eleven matching questions: the
search response reports ten while eleven match, and the listing endpoint
reports the full count of eleven. -/
theorem C10_search_total_questions_witness :
    (∃ r, search_questions Option.none (some "lake") bigStore = Except.ok r ∧
      r.total_questions = r.questions.length ∧
      r.total_questions ≤ 10 ∧
      r.total_questions < (searchMatches (some "lake") bigStore).length) ∧
    (∃ r2, get_questions Option.none bigStore = Except.ok r2 ∧
      r2.total_questions = bigStore.questions.length) := by
  constructor
  · obtain ⟨h1, h2, h3⟩ :=
      (C10_search_total_questions Option.none (some "lake") bigStore).1 _ rfl
    exact ⟨_, rfl, h1, h2, h3 (by decide)⟩
  · exact ⟨_, rfl,
      (C10_search_total_questions Option.none (some "lake") bigStore).2 _ rfl⟩

end Trivia
